import Mathlib

/-!
Verification of the IO Board firmware's concurrent register-and-alarm core
against its natural-language specification.

The repository ships the specification, two engineering reports
(THREAD_SAFETY_ISSUE_REPORT.md, WATCHDOG_FEATURE_SUMMARY.md) and the CBOR
boundary header (BlueCherryZTP_CBOR.h, which contains the concrete
`buildStatusCbor` source).  The firmware sketch `IO_BOARD_FIRMWARE5.ino`
that implements SharedStateGuard, RegisterFile, WebWriteChannel,
AlarmHysteresis and WatchdogCoordinator is not part of the source tree, so
those components are modelled from the specification's contracts (each such
definition is marked `Modelled from the spec:`).  `buildStatusCbor` is
embedded from the source in BlueCherryZTP_CBOR.h.
-/

/-! ## RegisterFile -/

/-- Bank registers are 8-bit; 255 is the all-ones byte mask. -/
def byteMask : Nat := 255

/-- One of the two independent 8-bit register groups (A, B). -/
inductive Bank where
  | A
  | B
deriving Repr, DecidableEq

/-- The per-bank logical register offsets of the emulated expander chip:
direction mask, pull-up mask, and the port/output register. -/
inductive RegOffset where
  | direction
  | pullUp
  | port
deriving Repr, DecidableEq

/-- Modelled from the spec: the canonical per-bank register state of
`RegisterFile` (§3).  The implementing sketch IO_BOARD_FIRMWARE5.ino is not
under src/; the data model follows §3: two banks, each with a direction mask
(1 = input), a pull-up mask and an output latch.  The live electrical input
levels are external inputs, passed in where a derived port value is read. -/
structure RegisterFile where
  dirA : Nat
  dirB : Nat
  pullA : Nat
  pullB : Nat
  latchA : Nat
  latchB : Nat
deriving Repr, DecidableEq

/-- Modelled from the spec: the derived port value (§3) — for any pin
configured as output (direction bit 0) the derived value equals the output
latch bit; for input-configured pins (direction bit 1) it equals the live
electrical level. -/
def portValue (dir latch live : Nat) : Nat :=
  (latch &&& (byteMask ^^^ dir)) ||| (live &&& dir)

/-- Modelled from the spec: the centralized masked-write discipline of §4.2 —
writing the port/output register only affects bits whose direction is output;
input-configured bits keep the previous latch value (read-modify against the
direction mask, never raw overwrite). -/
def maskedPortWrite (dir latch written : Nat) : Nat :=
  (written &&& (byteMask ^^^ dir)) ||| (latch &&& dir)

/-- Modelled from the spec: `RegisterFile.writeRegister` (§4.2).  Direction
and pull-up writes store the byte; a port write goes through the masked-write
discipline against the bank's direction mask. -/
def writeRegister (rf : RegisterFile) (bank : Bank) (off : RegOffset) (b : Nat) :
    RegisterFile :=
  match bank, off with
  | .A, .direction => { rf with dirA := b &&& byteMask }
  | .A, .pullUp    => { rf with pullA := b &&& byteMask }
  | .A, .port      => { rf with latchA := maskedPortWrite rf.dirA rf.latchA (b &&& byteMask) }
  | .B, .direction => { rf with dirB := b &&& byteMask }
  | .B, .pullUp    => { rf with pullB := b &&& byteMask }
  | .B, .port      => { rf with latchB := maskedPortWrite rf.dirB rf.latchB (b &&& byteMask) }

/-- Modelled from the spec: `RegisterFile.readRegister` (§4.2), with the live
input levels of the two banks supplied externally. -/
def readRegister (rf : RegisterFile) (liveA liveB : Nat) (bank : Bank)
    (off : RegOffset) : Nat :=
  match bank, off with
  | .A, .direction => rf.dirA
  | .A, .pullUp    => rf.pullA
  | .A, .port      => portValue rf.dirA rf.latchA liveA
  | .B, .direction => rf.dirB
  | .B, .pullUp    => rf.pullB
  | .B, .port      => portValue rf.dirB rf.latchB liveB

/-! ## SharedStateGuard -/

/-- A consistent point-in-time copy of the two derived port values, used for
telemetry and for the cache-fallback path. -/
structure Snapshot where
  portA : Nat
  portB : Nat
deriving Repr, DecidableEq

/-- The snapshot derived from a register file and the live input levels. -/
def snapshotOf (rf : RegisterFile) (liveA liveB : Nat) : Snapshot :=
  { portA := portValue rf.dirA rf.latchA liveA
    portB := portValue rf.dirB rf.latchB liveB }

/-- Modelled from the spec: the state owned by `SharedStateGuard` (§4.1) —
the register file plus the cached copy of the last successfully-read port
values.  The sketch implementing the guard is not under src/; the model
follows §4.1 and the 9.1c fix described in THREAD_SAFETY_ISSUE_REPORT.md. -/
structure GuardState where
  regs : RegisterFile
  cache : Snapshot
deriving Repr, DecidableEq

/-- Acquisition mode of §4.1: `Critical` for the interrupt-context bus
callback, `Normal` for the cooperative web writer and snapshot job. -/
inductive Mode where
  | Critical
  | Normal
deriving Repr, DecidableEq

/-- Whether the bounded-wait acquisition obtained the lock within budget. -/
inductive LockOutcome where
  | acquired
  | busy
deriving Repr, DecidableEq

/-- Result of a guarded acquisition: exclusive access to the registers, the
cached snapshot substituted on a Critical-mode miss, or the `LockBusy`
failure surfaced to Normal-mode callers. -/
inductive AccessResult where
  | exclusive : RegisterFile → AccessResult
  | cached : Snapshot → AccessResult
  | lockBusy : AccessResult
deriving Repr, DecidableEq

/-- Modelled from the spec: `SharedStateGuard.withLock` (§4.1, §7).  If the
lock is obtained within budget the caller gets exclusive access.  If not,
a `Critical`-mode caller transparently receives the most recent cached
snapshot (never `LockBusy`, never blocking past budget, never aborting —
the function is total); a `Normal`-mode caller gets the retryable
`LockBusy` failure. -/
def withLock (mode : Mode) (outcome : LockOutcome) (g : GuardState) :
    AccessResult :=
  match outcome with
  | .acquired => .exclusive g.regs
  | .busy =>
    match mode with
    | .Critical => .cached g.cache
    | .Normal => .lockBusy

/-- A single atomic register write: bank, offset, byte value. -/
def WriteOp : Type := Bank × RegOffset × Nat

/-- Apply one write to a register file through the centralized discipline. -/
def applyWrite (rf : RegisterFile) (w : WriteOp) : RegisterFile :=
  writeRegister rf w.1 w.2.1 w.2.2

/-- Modelled from the spec: a successful exclusive-write exit of the guard
(§4.1) — the write mutates the registers and the cache is updated with the
newly written values before the lock is released. -/
def exclusiveWrite (g : GuardState) (w : WriteOp) (liveA liveB : Nat) :
    GuardState :=
  let rf := applyWrite g.regs w
  { regs := rf, cache := snapshotOf rf liveA liveB }

/-- Modelled from the spec: the concurrency model of §5 — the mutex makes
each write one indivisible critical section, so a concurrent execution of the
two writer contexts is an interleaving of their write sequences.
`Interleaving xs ys zs` says `zs` is one schedule merging `xs` and `ys`. -/
inductive Interleaving : List WriteOp → List WriteOp → List WriteOp → Prop where
  | nil : Interleaving [] [] []
  | left {x : WriteOp} {xs ys zs : List WriteOp} :
      Interleaving xs ys zs → Interleaving (x :: xs) ys (x :: zs)
  | right {y : WriteOp} {xs ys zs : List WriteOp} :
      Interleaving xs ys zs → Interleaving xs (y :: ys) (y :: zs)

/-- The register file reached by executing a schedule of atomic writes. -/
def runWrites (init : RegisterFile) (ws : List WriteOp) : RegisterFile :=
  ws.foldl applyWrite init

/-! ## WebWriteChannel -/

/-- Result of `setRelay`: the confirmed read-back state, the retryable
`Busy` condition, or `OutOfRange` for an invalid index. -/
inductive SetRelayResult where
  | ok : Bool → SetRelayResult
  | busy
  | outOfRange
deriving Repr, DecidableEq

/-- The known relay count: the relays occupy the eight pins of bank A. -/
def relayCount : Nat := 8

/-- Modelled from the spec: `WebWriteChannel.setRelay` (§4.4).  The sketch is
not under src/; the model follows the contract: validate the index against
the relay count, acquire the guard in Normal mode, perform the masked port
write, and read back through the same acquisition.  An invalid index is
rejected before touching shared state; a lock miss surfaces `Busy` with no
mutation. -/
def setRelay (g : GuardState) (idx : Nat) (desired : Bool)
    (outcome : LockOutcome) (liveA liveB : Nat) : SetRelayResult × GuardState :=
  if relayCount ≤ idx then
    (.outOfRange, g)
  else
    match outcome with
    | .busy => (.busy, g)
    | .acquired =>
      let written :=
        if desired then g.regs.latchA ||| (1 <<< idx)
        else g.regs.latchA &&& (byteMask ^^^ (1 <<< idx))
      let g' := exclusiveWrite g (Bank.A, RegOffset.port, written) liveA liveB
      (.ok ((portValue g'.regs.dirA g'.regs.latchA liveA).testBit idx), g')

/-! ## AlarmHysteresis -/

/-- The hysteresis depth: three consecutive agreeing samples commit a
transition (THREAD_SAFETY_ISSUE_REPORT.md: "3 consecutive good readings"). -/
def hysteresisN : Nat := 3

/-- Modelled from the spec: `AlarmState` (§3) — the confirmed boolean
(true = ALARM) and the count of consecutive samples agreeing with the
currently pending transition.  A pending transition is always toward the
negation of the confirmed state, so the direction needs no extra field. -/
structure AlarmState where
  confirmed : Bool
  counter : Nat
deriving Repr, DecidableEq

/-- Modelled from the spec: `AlarmHysteresis.observeSample` (§4.5).  The
sketch is not under src/; the model follows the contract: a sample agreeing
with the confirmed state resets the pending counter to 0; a disagreeing
sample advances the pending counter (starting a new pending transition at 1
when none was pending); when the counter reaches N = 3 the transition
commits — the confirmed state flips, the counter resets, and one transition
event (some raised) is emitted. -/
def observeSample (s : AlarmState) (raw : Bool) : AlarmState × Option Bool :=
  if raw = s.confirmed then
    ({ s with counter := 0 }, none)
  else
    let c := s.counter + 1
    if hysteresisN ≤ c then
      ({ confirmed := raw, counter := 0 }, some raw)
    else
      ({ s with counter := c }, none)

/-- Feed a raw sample sequence, collecting the emitted transition events. -/
def runSamples (s : AlarmState) (rs : List Bool) : AlarmState × List Bool :=
  rs.foldl
    (fun acc r =>
      let step := observeSample acc.1 r
      (step.1, acc.2 ++ step.2.toList))
    (s, [])

/-! ## WatchdogCoordinator -/

/-- The serial watchdog timeout: 5 minutes in milliseconds
(WATCHDOG_FEATURE_SUMMARY.md, `WATCHDOG_TIMEOUT = 300000`). -/
def WATCHDOG_TIMEOUT : Nat := 300000

/-- Modelled from the spec: `WatchdogState` (§3) — last-activity timestamp,
the triggered flag, and the enabled flag from persisted configuration. -/
structure WatchdogState where
  enabled : Bool
  lastActivity : Nat
  triggered : Bool
deriving Repr, DecidableEq

/-- Modelled from the spec: `WatchdogCoordinator.tick` (§4.6), the model of
`checkSerialWatchdog` whose sketch is not under src/.  It evaluates
`enabled && (now - lastActivity) >= timeout && !triggered`; when that holds
it sets the triggered flag, records `now`, and reports that the pulse side
effect was emitted (the returned boolean). -/
def tick (s : WatchdogState) (now : Nat) : WatchdogState × Bool :=
  if s.enabled && decide (WATCHDOG_TIMEOUT ≤ now - s.lastActivity) && !s.triggered then
    ({ s with triggered := true, lastActivity := now }, true)
  else
    (s, false)

/-- Modelled from the spec: `WatchdogCoordinator.onActivity` (§4.6), the
model of `resetSerialWatchdog`: unconditionally clears the triggered flag
and updates the last-activity timestamp. -/
def onActivity (s : WatchdogState) (now : Nat) : WatchdogState :=
  { s with triggered := false, lastActivity := now }

/-! ## Watchdog pulse side effect -/

/-- The fixed pulse duration: 1 second (WATCHDOG_FEATURE_SUMMARY.md:
"Pulses HIGH for 1 second, then returns to LOW"). -/
def PULSE_DURATION_MS : Nat := 1000

/-- Modelled from the spec: the state of the single digital watchdog output
(GPIO39) — whether the pin is currently asserting HIGH and the time at which
the current pulse ends. -/
structure PulseState where
  asserting : Bool
  pulseEnd : Nat
deriving Repr, DecidableEq

/-- Modelled from the spec: `pulseWatchdogPin` (§6 pulse side effect).  The
sketch is not under src/; the model follows the contract: starting a pulse
asserts the pin HIGH for the fixed duration; invoking it while the pulse is
already asserting changes nothing (no overlapping pulse, no extension). -/
def pulseWatchdogPin (p : PulseState) (now : Nat) : PulseState :=
  if p.asserting then p
  else { asserting := true, pulseEnd := now + PULSE_DURATION_MS }

/-- Modelled from the spec: the passage of time for the pulse output — once
the fixed duration has elapsed the pin returns LOW. -/
def pulseStep (p : PulseState) (now : Nat) : PulseState :=
  if p.asserting && decide (p.pulseEnd ≤ now) then { p with asserting := false }
  else p

/-- The electrical level of the watchdog output: HIGH while asserting. -/
def pinLevel (p : PulseState) : Bool := p.asserting

/-! ## buildStatusCbor (embedded from BlueCherryZTP_CBOR.h) -/

/-- One encoder emission of the status packet builder: the array header or
one encoded element (integer or text string).  The encoding is modelled at
the granularity of the encoder calls in `buildStatusCbor`. -/
inductive CborToken where
  | arrayHeader : Nat → CborToken
  | int : Int → CborToken
  | str : List Char → CborToken
deriving Repr, DecidableEq

/-- Accumulate decimal digits, as `atol` does, stopping at the first
non-digit. -/
def digitsToNat : List Char → Nat → Nat
  | c :: cs, acc =>
    if c.isDigit then digitsToNat cs (acc * 10 + (c.toNat - 48)) else acc
  | [], acc => acc

/-- Arduino `String::toInt` (an `atol` wrapper): skip leading spaces, accept
an optional sign, then decimal digits; 0 when no digits lead. -/
def strToInt (l : List Char) : Int :=
  match l.dropWhile (fun c => c = ' ') with
  | '-' :: cs => -Int.ofNat (digitsToNat cs 0)
  | '+' :: cs => Int.ofNat (digitsToNat cs 0)
  | cs => Int.ofNat (digitsToNat cs 0)

/-- The suffix after the last occurrence of `c`, mirroring
`substring(lastIndexOf(c) + 1)`; the whole list when `c` does not occur. -/
def afterLast (c : Char) : List Char → List Char
  | [] => []
  | x :: xs =>
    if xs.contains c then afterLast c xs
    else if x = c then xs
    else x :: xs

/-- The device-id extraction of `buildStatusCbor` (BlueCherryZTP_CBOR.h,
lines 83-92): strip a "CSX-" or "RND-" four-character head, else take the
substring after the last hyphen when one occurs, else keep the name. -/
def stripDeviceId (name : List Char) : List Char :=
  if name.take 4 = "CSX-".toList ∨ name.take 4 = "RND-".toList then
    name.drop 4
  else if name.contains '-' then
    afterLast '-' name
  else name

/-- The global inputs `buildStatusCbor` reads (deviceName, ver, the modem
fields, MAC, IMEI, SD-card health and the cell identifiers). -/
structure StatusInputs where
  deviceName : List Char
  ver : List Char
  modemBand : List Char
  modemNetName : List Char
  modemRSRP : List Char
  modemRSRQ : List Char
  macStr : List Char
  imei : List Char
  sdOk : Bool
  modemCC : Int
  modemNC : Int
  modemCID : Int
  modemTAC : Int

/-- `buildStatusCbor` (BlueCherryZTP_CBOR.h, lines 80-145), embedded as the
sequence of encoder emissions: the 15-element array header followed by the
15 encoded fields in source order. -/
def buildStatusCbor (st : StatusInputs) : List CborToken :=
  [ .arrayHeader 15,
    .int (strToInt (stripDeviceId st.deviceName)),
    .str "IO_Board".toList,
    .str st.ver,
    .int (strToInt st.modemBand),
    .str st.modemNetName,
    .str st.modemRSRP,
    .str st.modemRSRQ,
    .str st.macStr,
    .str st.imei,
    .int 0,
    .str (if st.sdOk then "OK".toList else "FAULT".toList),
    .int st.modemCC,
    .int st.modemNC,
    .int st.modemCID,
    .int st.modemTAC ]

/-! ## Theorems -/

/-- Every bit of the all-ones byte mask below position 8 is set. -/
theorem byteMask_testBit_of_lt (i : Nat) (h : i < 8) : byteMask.testBit i = true := by
  interval_cases i <;> decide

/-- Claim C1: for every SharedStateGuard acquisition attempt in Critical
mode in which the lock is not obtained within budget, the call returns the
most recent cached snapshot; a Critical-mode caller never receives
`LockBusy`, and `withLock` is a total function (no abort path). -/
theorem withLock_critical_never_lockBusy (outcome : LockOutcome) (g : GuardState) :
    withLock Mode.Critical outcome g ≠ AccessResult.lockBusy ∧
    withLock Mode.Critical LockOutcome.busy g = AccessResult.cached g.cache := by
  cases outcome <;> simp [withLock]

/-- Claim C2: every successful exclusive-write exit updates the cache with
the newly written values, so a subsequent Critical-mode read that misses the
lock observes the snapshot of the state after the just-completed write, and
the updated cache does not depend on any pre-prior cache contents. -/
theorem exclusiveWrite_cache_sees_last_write (g : GuardState) (w : WriteOp)
    (liveA liveB : Nat) (c' : Snapshot) :
    (exclusiveWrite g w liveA liveB).cache =
      snapshotOf (applyWrite g.regs w) liveA liveB ∧
    withLock Mode.Critical LockOutcome.busy (exclusiveWrite g w liveA liveB) =
      AccessResult.cached (snapshotOf (applyWrite g.regs w) liveA liveB) ∧
    (exclusiveWrite { regs := g.regs, cache := c' } w liveA liveB).cache =
      (exclusiveWrite g w liveA liveB).cache := by
  refine ⟨rfl, ?_, rfl⟩
  simp [withLock, exclusiveWrite]

/-- Claim C3: for every bank, every written byte, every direction-mask byte
and every live-input byte, writing the port/output register through
`writeRegister` changes only the latch bits whose direction is output, and
every input-configured pin's derived port value equals its live input level,
never the written bit. -/
theorem writeRegister_port_masked_discipline (rf : RegisterFile)
    (written live : Nat) (i : Nat) (hw : written < 256) (hl : live < 256)
    (hi : i < 8) :
    ((writeRegister rf Bank.A RegOffset.port written).latchA.testBit i =
      if rf.dirA.testBit i then rf.latchA.testBit i else written.testBit i) ∧
    ((portValue rf.dirA (writeRegister rf Bank.A RegOffset.port written).latchA
        live).testBit i =
      if rf.dirA.testBit i then live.testBit i else written.testBit i) ∧
    ((writeRegister rf Bank.B RegOffset.port written).latchB.testBit i =
      if rf.dirB.testBit i then rf.latchB.testBit i else written.testBit i) ∧
    ((portValue rf.dirB (writeRegister rf Bank.B RegOffset.port written).latchB
        live).testBit i =
      if rf.dirB.testBit i then live.testBit i else written.testBit i) := by
  have h255 := byteMask_testBit_of_lt i hi
  refine ⟨?_, ?_, ?_, ?_⟩ <;>
    cases hdA : rf.dirA.testBit i <;> cases hdB : rf.dirB.testBit i <;>
      simp [writeRegister, maskedPortWrite, portValue, Nat.testBit_land,
        Nat.testBit_lor, Nat.testBit_xor, h255, hdA, hdB]

/-- Witness for claim C3: the masked-write law evaluated at a concrete bank-A
state with direction 0xF0 (high nibble input), written byte 0x0F, live level
0xAA, bit 3 (an output pin) — the latch takes the written bit. -/
theorem writeRegister_port_masked_discipline_spot :
    (15 : Nat) < 256 ∧ (170 : Nat) < 256 ∧ (3 : Nat) < 8 ∧
    ((writeRegister ⟨240, 0, 0, 0, 0, 0⟩ Bank.A RegOffset.port 15).latchA.testBit 3 =
      if (240 : Nat).testBit 3 then (0 : Nat).testBit 3 else (15 : Nat).testBit 3) :=
  ⟨by decide, by decide, by decide,
    (writeRegister_port_masked_discipline ⟨240, 0, 0, 0, 0, 0⟩ 15 170 3
      (by decide) (by decide) (by decide)).1⟩

/-- Claim C4: starting from confirmed CLEAR, feeding [1,1,1] flips the
confirmed state to ALARM exactly on the third sample (not the first or
second) and emits exactly one transition event; feeding [1,1,0,1,1] never
changes the confirmed state at any point and emits no event. -/
theorem observeSample_three_sample_commit :
    (runSamples ⟨false, 0⟩ [true]).1.confirmed = false ∧
    (runSamples ⟨false, 0⟩ [true, true]).1.confirmed = false ∧
    (runSamples ⟨false, 0⟩ [true, true]).2 = [] ∧
    (runSamples ⟨false, 0⟩ [true, true, true]).1 = ⟨true, 0⟩ ∧
    (runSamples ⟨false, 0⟩ [true, true, true]).2 = [true] ∧
    (runSamples ⟨false, 0⟩ [true, true, false]).1.confirmed = false ∧
    (runSamples ⟨false, 0⟩ [true, true, false, true]).1.confirmed = false ∧
    (runSamples ⟨false, 0⟩ [true, true, false, true, true]).1.confirmed = false ∧
    (runSamples ⟨false, 0⟩ [true, true, false, true, true]).2 = [] := by
  decide

/-- Claim C8: a raw sample that disagrees with the direction of the
currently pending transition (the pending direction is always the negation
of the confirmed state, so such a sample equals the confirmed state) resets
the pending counter to zero, leaves the confirmed boolean unchanged, and
emits no event. -/
theorem observeSample_disagreeing_sample_resets (s : AlarmState) (raw : Bool)
    (hpending : 0 < s.counter) (hdis : raw = s.confirmed) :
    observeSample s raw = ({ s with counter := 0 }, none) := by
  simp [observeSample, hdis]

/-- Witness for claim C8: a pending ALARM transition two samples deep is
cancelled by one CLEAR-agreeing sample. -/
theorem observeSample_disagreeing_sample_resets_spot :
    0 < (2 : Nat) ∧ false = false ∧
    observeSample ⟨false, 2⟩ false = (⟨false, 0⟩, none) :=
  ⟨by decide, rfl,
    observeSample_disagreeing_sample_resets ⟨false, 2⟩ false (by decide) rfl⟩

/-- Claim C5: `tick` emits the pulse and has set the triggered flag exactly
under `enabled && timeout elapsed && !triggered`; a tick one millisecond
before the deadline does not trigger; repeated ticks without intervening
activity pulse at most once; `onActivity` unconditionally clears the
triggered flag and records the activity time. -/
theorem tick_watchdog_semantics (s : WatchdogState) (now now2 : Nat) :
    ((tick s now).2 =
      (s.enabled && decide (WATCHDOG_TIMEOUT ≤ now - s.lastActivity) &&
        !s.triggered)) ∧
    ((tick s now).1.triggered =
      (s.triggered ||
        (s.enabled && decide (WATCHDOG_TIMEOUT ≤ now - s.lastActivity)))) ∧
    ((tick s (s.lastActivity + WATCHDOG_TIMEOUT - 1)).2 = false) ∧
    (((tick s now).2 && (tick (tick s now).1 now2).2) = false) ∧
    ((onActivity s now).triggered = false ∧
      (onActivity s now).lastActivity = now) := by
  have hpre : s.lastActivity + WATCHDOG_TIMEOUT - 1 - s.lastActivity =
      WATCHDOG_TIMEOUT - 1 := by omega
  have hlt : ¬ (WATCHDOG_TIMEOUT ≤ WATCHDOG_TIMEOUT - 1) := by decide
  refine ⟨?_, ?_, ?_, ?_, rfl, rfl⟩
  · simp only [tick]
    split <;> simp_all
  · simp only [tick]
    split <;> simp_all
  · simp [tick, hpre, hlt]
  · simp only [tick]
    split <;> simp_all

/-- Claim C6: for every index at or beyond the relay count and every desired
state, `setRelay` returns `OutOfRange` and returns the guard state (register
file and cached snapshot) completely unchanged, whatever the lock outcome. -/
theorem setRelay_outOfRange_no_mutation (g : GuardState) (idx : Nat)
    (desired : Bool) (outcome : LockOutcome) (liveA liveB : Nat)
    (h : relayCount ≤ idx) :
    setRelay g idx desired outcome liveA liveB = (SetRelayResult.outOfRange, g) := by
  simp [setRelay, h]

/-- Witness for claim C6: index 8 (one past the last relay) is rejected with
no mutation of a concrete guard state. -/
theorem setRelay_outOfRange_no_mutation_spot :
    relayCount ≤ 8 ∧
    setRelay ⟨⟨0, 0, 0, 0, 0, 0⟩, ⟨0, 0⟩⟩ 8 true LockOutcome.acquired 0 0 =
      (SetRelayResult.outOfRange, ⟨⟨0, 0, 0, 0, 0, 0⟩, ⟨0, 0⟩⟩) :=
  ⟨by decide,
    setRelay_outOfRange_no_mutation ⟨⟨0, 0, 0, 0, 0, 0⟩, ⟨0, 0⟩⟩ 8 true
      LockOutcome.acquired 0 0 (by decide)⟩

/-- Any schedule interleaving the two writers' sequences is a permutation of
their concatenation. -/
theorem interleaving_perm {xs ys zs : List WriteOp} (h : Interleaving xs ys zs) :
    zs.Perm (xs ++ ys) := by
  induction h with
  | nil => simp
  | left _ ih => exact ih.cons _
  | right _ ih => exact (ih.cons _).trans List.perm_middle.symm

/-- Claim C7: for every interleaved execution of the two writer contexts
(each write an indivisible critical section under the guard), the final
register-file state equals the state produced by some total ordering of the
individual writes — the schedule itself is such a serial order, so no torn
or merged register value outside every serial ordering is reachable. -/
theorem interleaved_writes_serializable (init : RegisterFile)
    (ws1 ws2 zs : List WriteOp) (h : Interleaving ws1 ws2 zs) :
    ∃ order : List WriteOp, order.Perm (ws1 ++ ws2) ∧
      runWrites init zs = runWrites init order :=
  ⟨zs, interleaving_perm h, rfl⟩

/-- Witness for claim C7: a concrete schedule putting the web writer's port
write before the bus writer's is an interleaving, and its final state is the
serial execution of some total order of the two writes. -/
theorem interleaved_writes_serializable_spot :
    Interleaving [((Bank.A, RegOffset.port, 1) : WriteOp)]
      [((Bank.B, RegOffset.port, 2) : WriteOp)]
      [((Bank.B, RegOffset.port, 2) : WriteOp),
        ((Bank.A, RegOffset.port, 1) : WriteOp)] ∧
    ∃ order : List WriteOp,
      order.Perm ([((Bank.A, RegOffset.port, 1) : WriteOp)] ++
        [((Bank.B, RegOffset.port, 2) : WriteOp)]) ∧
      runWrites ⟨0, 0, 0, 0, 0, 0⟩
          [((Bank.B, RegOffset.port, 2) : WriteOp),
            ((Bank.A, RegOffset.port, 1) : WriteOp)] =
        runWrites ⟨0, 0, 0, 0, 0, 0⟩ order :=
  ⟨Interleaving.right (Interleaving.left Interleaving.nil),
    interleaved_writes_serializable ⟨0, 0, 0, 0, 0, 0⟩ _ _ _
      (Interleaving.right (Interleaving.left Interleaving.nil))⟩

/-- Claim C9: the watchdog pulse asserts the output HIGH for the fixed
one-second duration and the output returns LOW exactly when that duration
has elapsed; invoking `pulseWatchdogPin` while already asserting is
idempotent — composing two invocations equals one, so no overlapping pulse
is produced and the current pulse's end time is never extended. -/
theorem pulseWatchdogPin_idempotent_fixed_duration (p : PulseState)
    (now now2 t e : Nat) :
    pulseWatchdogPin (pulseWatchdogPin p now) now2 = pulseWatchdogPin p now ∧
    (pulseWatchdogPin ⟨false, e⟩ now).asserting = true ∧
    (pulseWatchdogPin ⟨false, e⟩ now).pulseEnd = now + PULSE_DURATION_MS ∧
    pinLevel (pulseStep (pulseWatchdogPin ⟨false, e⟩ now) t) =
      decide (t < now + PULSE_DURATION_MS) := by
  refine ⟨?_, rfl, rfl, ?_⟩
  · by_cases hp : p.asserting <;> simp [pulseWatchdogPin, hp]
  · by_cases ht : now + PULSE_DURATION_MS ≤ t <;>
      simp [pulseWatchdogPin, pulseStep, pinLevel, ht] <;> omega

/-- Claim C10: for every input state, `buildStatusCbor` emits exactly a
15-element array header followed by 15 elements in the fixed field order,
with the string "IO_Board" at position 1, the constant integer 0 (plc_type)
at position 9, and at position 0 the integer parsed from the device name
after stripping a "CSX-" or "RND-" head, or otherwise — when the name holds
a hyphen — from the substring after the last hyphen. -/
theorem buildStatusCbor_fixed_layout (st : StatusInputs) :
    (buildStatusCbor st).head? = some (CborToken.arrayHeader 15) ∧
    ((buildStatusCbor st).drop 1).length = 15 ∧
    ((buildStatusCbor st).drop 1)[1]? = some (CborToken.str "IO_Board".toList) ∧
    ((buildStatusCbor st).drop 1)[9]? = some (CborToken.int 0) ∧
    ((buildStatusCbor st).drop 1)[0]? =
      some (CborToken.int (strToInt (stripDeviceId st.deviceName))) ∧
    ((st.deviceName.take 4 = "CSX-".toList ∨ st.deviceName.take 4 = "RND-".toList) →
      stripDeviceId st.deviceName = st.deviceName.drop 4) ∧
    (¬(st.deviceName.take 4 = "CSX-".toList ∨ st.deviceName.take 4 = "RND-".toList) →
      st.deviceName.contains '-' = true →
      stripDeviceId st.deviceName = afterLast '-' st.deviceName) := by
  refine ⟨rfl, rfl, rfl, rfl, rfl, ?_, ?_⟩
  · intro h1
    simp only [stripDeviceId]
    rw [if_pos h1]
  · intro h1 h2
    simp only [stripDeviceId]
    rw [if_neg h1, if_pos h2]
